import Mathlib

/-!
Verification of the Schedul-AI node-scoring and history-cache engine.

Shallow embedding of the Go sources:
  internal/types/pod_cache.go   (PodMetricsCache, calculateNodeAnalysis)
  internal/scheduler/ai_scheduler.go
      (calculateNodeScore, analyzePodMetrics, PredictBestNode, makeFinalDecision)
  config/config.yaml            (reference scoring weights)

Conventions of the embedding:
  Go float64 values are modelled as exact rationals.
  Go time.Time and time.Duration values are modelled as Int nanoseconds;
  Go integer division of durations is modelled with Int.tdiv (truncation
  toward zero, as in Go).
  Go maps keyed by node name are modelled as total functions from String,
  whose default value is the Go zero value (empty slice, 0).
  The numeric interpolation performed by fmt.Sprintf inside reason strings
  is elided: each reason keeps the fixed text of the corresponding
  source string.
-/

/-- One hour in nanoseconds, matching Go time.Hour. -/
def hourNS : Int := 3600 * 1000000000

/-- The 7-day retention horizon of UpdateCache, in nanoseconds. -/
def horizonNS : Int := 7 * 24 * hourNS

/-- PodMetrics from internal/types/metrics.go.  Timestamps are Int
nanoseconds since an arbitrary epoch. -/
structure PodMetrics where
  podName : String
  nodeName : String
  namespaceName : String
  status : String
  restartCount : Int
  createdAt : Int
  timestamp : Int
deriving DecidableEq, Repr

/-- NodeAnalysis from internal/types/pod_cache.go. -/
structure NodeAnalysis where
  nodeName : String
  totalPods : Nat
  failedPods : Nat
  successfulPods : Nat
  failureRate : ℚ
  averageRestartCount : ℚ
  averageLifetime : Int
  stabilityScore : ℚ
  recommendations : List String
deriving DecidableEq, Repr

/-- The Go zero value of NodeAnalysis (returned for an empty event set). -/
def zeroNodeAnalysis : NodeAnalysis :=
  { nodeName := ""
    totalPods := 0
    failedPods := 0
    successfulPods := 0
    failureRate := 0
    averageRestartCount := 0
    averageLifetime := 0
    stabilityScore := 0
    recommendations := [] }

/-- Number of events with status "Failed" (the failedPods loop counter of
calculateNodeAnalysis). -/
def countFailed (metrics : List PodMetrics) : Nat :=
  (metrics.filter (fun m => m.status == "Failed")).length

/-- Sum of restart counts (the totalRestarts loop accumulator). -/
def totalRestarts (metrics : List PodMetrics) : Int :=
  (metrics.map (fun m => m.restartCount)).sum

/-- Sum of time.Since(metric.CreatedAt) over the events (the totalLifetime
loop accumulator), with the current time passed explicitly. -/
def totalLifetime (metrics : List PodMetrics) (now : Int) : Int :=
  (metrics.map (fun m => now - m.createdAt)).sum

/-- calculateNodeAnalysis from internal/types/pod_cache.go.  The Go
time.Now() read inside time.Since is passed explicitly as now. -/
def calculateNodeAnalysis (metrics : List PodMetrics) (now : Int) : NodeAnalysis :=
  match metrics with
  | [] => zeroNodeAnalysis
  | m :: _ =>
    let failedPods := countFailed metrics
    let failureRate : ℚ := (failedPods : ℚ) / (metrics.length : ℚ)
    let avgRestartCount : ℚ := (totalRestarts metrics : ℚ) / (metrics.length : ℚ)
    let avgLifetime : Int := (totalLifetime metrics now).tdiv (metrics.length : Int)
    let stabilityScore : ℚ := 1 - failureRate - avgRestartCount * 0.1
    let recommendations : List String :=
      (if failureRate > 0.1 then ["Yüksek başarısızlık oranı"] else []) ++
      (if avgRestartCount > 2 then ["Yüksek restart oranı"] else []) ++
      (if stabilityScore < 0.7 then ["Düşük kararlılık"] else [])
    { nodeName := m.nodeName
      totalPods := metrics.length
      failedPods := failedPods
      successfulPods := metrics.length - failedPods
      failureRate := failureRate
      averageRestartCount := avgRestartCount
      averageLifetime := avgLifetime
      stabilityScore := stabilityScore
      recommendations := recommendations }

/-- PodMetricsCache from internal/types/pod_cache.go.  The Go maps are
total functions defaulting to the Go zero values; lastUpdated keeps the
time of the last statistics update per node. -/
structure PodMetricsCache where
  nodePodHistory : String → List PodMetrics
  failureRates : String → ℚ
  restartRates : String → ℚ
  lastUpdated : String → Int

/-- NewPodMetricsCache: all maps empty. -/
def emptyCache : PodMetricsCache :=
  { nodePodHistory := fun _ => []
    failureRates := fun _ => 0
    restartRates := fun _ => 0
    lastUpdated := fun _ => 0 }

/-- Helper: replace one node's history list. -/
def setHistory (c : PodMetricsCache) (n : String) (l : List PodMetrics) : PodMetricsCache :=
  { c with nodePodHistory := fun k => if k = n then l else c.nodePodHistory k }

/-- cleanOldData: keep only events with Timestamp strictly after
now - maxAge (time.Time.After is strict). -/
def cleanOldData (c : PodMetricsCache) (n : String) (maxAge now : Int) : PodMetricsCache :=
  setHistory c n
    ((c.nodePodHistory n).filter (fun m => decide (now - maxAge < m.timestamp)))

/-- updateStatistics: recompute the eager failure and restart rates of one
node; a no-op when the node's history is empty. -/
def updateStatistics (c : PodMetricsCache) (n : String) (now : Int) : PodMetricsCache :=
  let metrics := c.nodePodHistory n
  if metrics.length = 0 then c
  else
    { c with
      failureRates := fun k =>
        if k = n then (countFailed metrics : ℚ) / (metrics.length : ℚ)
        else c.failureRates k
      restartRates := fun k =>
        if k = n then (totalRestarts metrics : ℚ) / (metrics.length : ℚ)
        else c.restartRates k
      lastUpdated := fun k => if k = n then now else c.lastUpdated k }

/-- UpdateCache: append the event to its node's history, prune events older
than the 7-day horizon, then recompute that node's statistics.  The Go
time.Now() is passed explicitly as now. -/
def updateCache (c : PodMetricsCache) (pm : PodMetrics) (now : Int) : PodMetricsCache :=
  let c1 := setHistory c pm.nodeName (c.nodePodHistory pm.nodeName ++ [pm])
  let c2 := cleanOldData c1 pm.nodeName horizonNS now
  updateStatistics c2 pm.nodeName now

/-- GetNodeAnalysis: filter one node's history to the queried window and
run the analyzer. -/
def getNodeAnalysis (c : PodMetricsCache) (n : String) (timeWindow now : Int) : NodeAnalysis :=
  calculateNodeAnalysis
    ((c.nodePodHistory n).filter (fun m => decide (now - timeWindow < m.timestamp))) now

/-- Scoring weights from SchedulerConfig.Scoring (internal/types, loaded
from config/config.yaml). -/
structure ScoringConfig where
  cpuWeight : ℚ
  memoryWeight : ℚ
  nodeReadyWeight : ℚ
  taintWeight : ℚ
  failedPodsWeight : ℚ
  restartWeight : ℚ
deriving DecidableEq, Repr

/-- The reference configuration of config/config.yaml. -/
def referenceConfig : ScoringConfig :=
  { cpuWeight := 30
    memoryWeight := 30
    nodeReadyWeight := 20
    taintWeight := 10
    failedPodsWeight := 20
    restartWeight := 10 }

/-- The part of a corev1.Node read by calculateNodeScore: allocatable CPU
in millicores and memory in bytes (none when the resource is absent from
Status.Allocatable), the status conditions as (type, status) pairs, and
the number of taints in Spec.Taints. -/
structure NodeInfo where
  name : String
  cpuAllocatableMilli : Option Int
  memAllocatableBytes : Option Int
  conditions : List (String × String)
  taints : Nat
deriving DecidableEq, Repr

/-- The readiness loop of calculateNodeScore: some condition has
Type NodeReady and Status ConditionTrue. -/
def nodeIsReady (node : NodeInfo) : Bool :=
  node.conditions.any (fun c => c.1 == "Ready" && c.2 == "True")

/-- The CPU and memory terms of calculateNodeScore share this shape:
skip (contribute 0) when the resource is absent, zero, or its converted
capacity is not positive; otherwise weight * (1 - percent/100) clamped
below at 0.  For CPU the scale is 1000 (millicores to cores), for memory
1024^3 (bytes to GB). -/
def resourceTermScore (weight : ℚ) (alloc : Option Int) (scale usage : ℚ) : ℚ :=
  match alloc with
  | none => 0
  | some v =>
    if v = 0 then 0
    else
      let capacity : ℚ := (v : ℚ) / scale
      if 0 < capacity then
        let percent := usage / capacity * 100
        let s := weight * (1 - percent / 100)
        if s < 0 then 0 else s
      else 0

/-- Reason entries produced by a resource term (emitted exactly when the
term's computing branch is reached). -/
def resourceTermReasons (label : String) (alloc : Option Int) (scale : ℚ) : List String :=
  match alloc with
  | none => []
  | some v =>
    if v = 0 then []
    else if 0 < (v : ℚ) / scale then [label] else []

/-- Stability tier of analyzePodMetrics. -/
def stabilityTierScore (cfg : ScoringConfig) (a : NodeAnalysis) : ℚ :=
  if a.stabilityScore > 0.8 then cfg.failedPodsWeight
  else if a.stabilityScore > 0.6 then cfg.failedPodsWeight / 2
  else 0

/-- Failure-rate tier of analyzePodMetrics. -/
def failureTierScore (cfg : ScoringConfig) (a : NodeAnalysis) : ℚ :=
  if a.failureRate < 0.05 then cfg.failedPodsWeight
  else if a.failureRate < 0.1 then cfg.failedPodsWeight / 2
  else -cfg.failedPodsWeight

/-- Restart tier of analyzePodMetrics. -/
def restartTierScore (cfg : ScoringConfig) (a : NodeAnalysis) : ℚ :=
  if a.averageRestartCount ≤ 1 then cfg.restartWeight
  else if a.averageRestartCount ≤ 2 then 0
  else -cfg.restartWeight

/-- Lifetime tier of analyzePodMetrics (hardcoded plus or minus 10). -/
def lifetimeTierScore (a : NodeAnalysis) : ℚ :=
  if a.averageLifetime > 24 * hourNS then 10
  else if a.averageLifetime > hourNS then 0
  else -10

/-- analyzePodMetrics from ai_scheduler.go, applied to the NodeAnalysis it
reads from the cache (GetNodeAnalysis over a 24h window); the sequential
score accumulation of the Go code is the sum of the four tier terms. -/
def analyzePodMetrics (cfg : ScoringConfig) (a : NodeAnalysis) : ℚ × List String :=
  (stabilityTierScore cfg a + failureTierScore cfg a +
     restartTierScore cfg a + lifetimeTierScore a,
   (if a.stabilityScore > 0.8 then ["Yüksek kararlılık"]
    else if a.stabilityScore > 0.6 then ["Orta kararlılık"]
    else ["Düşük kararlılık"]) ++
   (if a.failureRate < 0.05 then ["Düşük başarısızlık oranı"]
    else if a.failureRate < 0.1 then ["Orta başarısızlık oranı"]
    else ["Yüksek başarısızlık oranı"]) ++
   (if a.averageRestartCount ≤ 1 then ["Düşük restart oranı"]
    else if a.averageRestartCount ≤ 2 then ["Orta restart oranı"]
    else ["Yüksek restart oranı"]) ++
   (if a.averageLifetime > 24 * hourNS then ["Uzun pod yaşam süresi"]
    else if a.averageLifetime > hourNS then ["Normal pod yaşam süresi"]
    else ["Kısa pod yaşam süresi"]))

/-- calculateNodeScore from ai_scheduler.go.  The live usage values (after
the metrics-client fallback to 0) and the cached 24h NodeAnalysis are
passed explicitly.  The reason trace is the ordered list of the fixed
parts of the Go trace strings. -/
def calculateNodeScore (cfg : ScoringConfig) (node : NodeInfo)
    (cpuUsage memUsage : ℚ) (a : NodeAnalysis) : ℚ × List String :=
  let cpuScore := resourceTermScore cfg.cpuWeight node.cpuAllocatableMilli 1000 cpuUsage
  let memScore :=
    resourceTermScore cfg.memoryWeight node.memAllocatableBytes (1024 * 1024 * 1024) memUsage
  let readyScore : ℚ := if nodeIsReady node then cfg.nodeReadyWeight else 0
  let taintScore : ℚ := if node.taints = 0 then cfg.taintWeight else 0
  let pa := analyzePodMetrics cfg a
  (cpuScore + memScore + readyScore + taintScore + pa.1,
   resourceTermReasons "CPU skoru" node.cpuAllocatableMilli 1000 ++
   resourceTermReasons "Memory skoru" node.memAllocatableBytes (1024 * 1024 * 1024) ++
   (if nodeIsReady node then ["Node hazır"] else ["Node hazır değil"]) ++
   (if node.taints = 0 then ["Taint yok"] else ["Taint var"]) ++
   pa.2)

/-- NodeScore from ai_scheduler.go; the reason is kept as the ordered
trace list rather than the Sprintf-joined string. -/
structure NodeScore where
  nodeName : String
  score : ℚ
  reason : List String
deriving DecidableEq, Repr

/-- The environment PredictBestNode draws on for each node: the scoring
weights, the resolved (CPU, memory) usage per node name (the fallbacks to
0 on metrics errors are part of this function), and the cached 24h
GetNodeAnalysis result per node name. -/
structure SchedEnv where
  cfg : ScoringConfig
  nodeUsage : String → ℚ × ℚ
  nodeAnalysis24h : String → NodeAnalysis

/-- Score of one node inside the PredictBestNode loop. -/
def scoreNode (env : SchedEnv) (node : NodeInfo) : ℚ × List String :=
  calculateNodeScore env.cfg node (env.nodeUsage node.name).1 (env.nodeUsage node.name).2
    (env.nodeAnalysis24h node.name)

/-- The selection loop of PredictBestNode: bestNode starts nil and
bestScore starts -1.0; a node replaces the best exactly when its score is
strictly greater than the current bestScore. -/
def selectLoop (f : NodeInfo → ℚ × List String) :
    List NodeInfo → Option NodeScore → ℚ → Option NodeScore
  | [], best, _ => best
  | node :: rest, best, bestScore =>
    let sr := f node
    if bestScore < sr.1 then
      selectLoop f rest (some { nodeName := node.name, score := sr.1, reason := sr.2 }) sr.1
    else
      selectLoop f rest best bestScore

/-- PredictBestNode from ai_scheduler.go.  The pod lookup and node listing
of the Kubernetes client are passed as Except results; the Go function
wraps their errors and otherwise returns the loop result together with a
nil error — including a nil best node when the loop never fired. -/
def predictBestNode (env : SchedEnv) (podLookup : Except String Unit)
    (nodeList : Except String (List NodeInfo)) : Except String (Option NodeScore) :=
  match podLookup with
  | .error e => .error ("pod bulunamadı: " ++ e)
  | .ok _ =>
    match nodeList with
    | .error e => .error ("node listesi alınamadı: " ++ e)
    | .ok nodes => .ok (selectLoop (scoreNode env) nodes none (-1))

/-- The remote response of getAIAnalysis as read by makeFinalDecision:
the score and confidence fields are each either a number or absent (the
Go type assertion on the decoded map). -/
structure AIAnalysis where
  score : Option ℚ
  confidence : Option ℚ
deriving DecidableEq, Repr

/-- The fallback reason string of makeFinalDecision. -/
def localOnlyReason : String := "Sadece Go algoritması kullanıldı"

/-- makeFinalDecision from ai_scheduler.go: none models a failed
getAIAnalysis call; a missing numeric score falls back to the local score;
a missing confidence defaults to 0.5; otherwise the 0.7/0.3 blend. -/
def makeFinalDecision (remote : Option AIAnalysis) (goScore : ℚ) : ℚ × String :=
  match remote with
  | none => (goScore, localOnlyReason)
  | some ai =>
    match ai.score with
    | none => (goScore, localOnlyReason)
    | some aiScore =>
      let confidence := ai.confidence.getD 0.5
      (aiScore * confidence * 0.7 + goScore * 0.3, "Final skor")

/-- A healthy sample event on node A: running, no restarts, created 25
hours before its observation at time 0. -/
def evHealthy : PodMetrics :=
  { podName := "p1", nodeName := "A", namespaceName := "default", status := "Running",
    restartCount := 0, createdAt := -(25 * hourNS), timestamp := 0 }

/-- A failed sample event on node A with a high restart count. -/
def evFailed : PodMetrics :=
  { podName := "p2", nodeName := "A", namespaceName := "default", status := "Failed",
    restartCount := 5, createdAt := 0, timestamp := 0 }

/-- A cache holding exactly one healthy event for node A, recorded at
time 0. -/
def cacheWithA : PodMetricsCache := updateCache emptyCache evHealthy 0

theorem calcAnalysis_totalPods (metrics : List PodMetrics) (now : Int) :
    (calculateNodeAnalysis metrics now).totalPods = metrics.length := by
  cases metrics with
  | nil => rfl
  | cons m rest => rfl

theorem calcAnalysis_failureRate (m : PodMetrics) (rest : List PodMetrics) (now : Int) :
    (calculateNodeAnalysis (m :: rest) now).failureRate =
      (countFailed (m :: rest) : ℚ) / ((m :: rest).length : ℚ) := rfl

theorem calcAnalysis_avgRestart (m : PodMetrics) (rest : List PodMetrics) (now : Int) :
    (calculateNodeAnalysis (m :: rest) now).averageRestartCount =
      (totalRestarts (m :: rest) : ℚ) / ((m :: rest).length : ℚ) := rfl

theorem calcAnalysis_stability (m : PodMetrics) (rest : List PodMetrics) (now : Int) :
    (calculateNodeAnalysis (m :: rest) now).stabilityScore =
      1 - (calculateNodeAnalysis (m :: rest) now).failureRate -
        (calculateNodeAnalysis (m :: rest) now).averageRestartCount * 0.1 := rfl

theorem calcAnalysis_recommendations (m : PodMetrics) (rest : List PodMetrics) (now : Int) :
    (calculateNodeAnalysis (m :: rest) now).recommendations =
      (if (calculateNodeAnalysis (m :: rest) now).failureRate > 0.1 then
        ["Yüksek başarısızlık oranı"] else []) ++
      (if (calculateNodeAnalysis (m :: rest) now).averageRestartCount > 2 then
        ["Yüksek restart oranı"] else []) ++
      (if (calculateNodeAnalysis (m :: rest) now).stabilityScore < 0.7 then
        ["Düşük kararlılık"] else []) := rfl

theorem countFailed_le_length (metrics : List PodMetrics) :
    countFailed metrics ≤ metrics.length :=
  List.length_filter_le _ _

/-- C2: the blender returns the local score unchanged, with the local-only
fallback reason, when the remote prediction is unavailable or lacks a
numeric score; with numeric score R and confidence c it returns
R*c*0.7 + L*0.3; a missing confidence defaults to 0.5. -/
theorem claim2_blend_law :
    ∀ L : ℚ,
      makeFinalDecision none L = (L, localOnlyReason) ∧
      (∀ conf : Option ℚ,
        makeFinalDecision (some { score := none, confidence := conf }) L =
          (L, localOnlyReason)) ∧
      (∀ R c : ℚ,
        (makeFinalDecision (some { score := some R, confidence := some c }) L).1 =
          R * c * 0.7 + L * 0.3) ∧
      (∀ R : ℚ,
        (makeFinalDecision (some { score := some R, confidence := none }) L).1 =
          R * 0.5 * 0.7 + L * 0.3) :=
  fun _ => ⟨rfl, fun _ => rfl, fun _ _ => rfl, fun _ => rfl⟩

/-- C8: when the set of events inside the window is empty, the analyzer
returns the zero-value NodeAnalysis with an empty recommendations list,
and it is total (never an error). -/
theorem claim8_empty_window_zero :
    (∀ now : Int, calculateNodeAnalysis [] now = zeroNodeAnalysis) ∧
    (∀ (c : PodMetricsCache) (n : String) (timeWindow now : Int),
      (c.nodePodHistory n).filter (fun m => decide (now - timeWindow < m.timestamp)) = [] →
      getNodeAnalysis c n timeWindow now = zeroNodeAnalysis) := by
  refine ⟨fun _ => rfl, fun c n timeWindow now h => ?_⟩
  simp only [getNodeAnalysis, h]
  rfl

/-- Witness for C8: the healthy event of cacheWithA sits at timestamp 0,
outside a 1-hour window queried at time 100h, so the analysis collapses
to the zero value. -/
theorem claim8_empty_window_zero_witness :
    ((cacheWithA.nodePodHistory "A").filter
        (fun m => decide (100 * hourNS - hourNS < m.timestamp)) = []) ∧
      getNodeAnalysis cacheWithA "A" hourNS (100 * hourNS) = zeroNodeAnalysis :=
  ⟨by decide, claim8_empty_window_zero.2 cacheWithA "A" hourNS (100 * hourNS) (by decide)⟩

/-- C9: for a non-empty filtered event set the stability score is exactly
1 - failureRate - 0.1*avgRestartCount with no clamping, the failure rate
always lies in [0,1], and some input drives the stability score negative. -/
theorem claim9_stability_unclamped :
    (∀ (metrics : List PodMetrics) (now : Int), metrics ≠ [] →
      (calculateNodeAnalysis metrics now).stabilityScore =
        1 - (calculateNodeAnalysis metrics now).failureRate -
          0.1 * (calculateNodeAnalysis metrics now).averageRestartCount) ∧
    (∀ (metrics : List PodMetrics) (now : Int),
      0 ≤ (calculateNodeAnalysis metrics now).failureRate ∧
        (calculateNodeAnalysis metrics now).failureRate ≤ 1) ∧
    (∃ (metrics : List PodMetrics) (now : Int),
      (calculateNodeAnalysis metrics now).stabilityScore < 0) := by
  refine ⟨?_, ?_, ?_⟩
  · intro metrics now h
    match metrics with
    | m :: rest =>
      rw [calcAnalysis_stability]
      ring
  · intro metrics now
    match metrics with
    | [] => exact ⟨le_refl 0, by norm_num [calculateNodeAnalysis, zeroNodeAnalysis]⟩
    | m :: rest =>
      rw [calcAnalysis_failureRate]
      have hlen : (0 : ℚ) < ((m :: rest).length : ℚ) := by
        exact_mod_cast Nat.succ_pos rest.length
      constructor
      · exact div_nonneg (Nat.cast_nonneg _) (le_of_lt hlen)
      · rw [div_le_one hlen]
        exact_mod_cast countFailed_le_length (m :: rest)
  · refine ⟨[evFailed], 0, ?_⟩
    norm_num [calculateNodeAnalysis, countFailed, totalRestarts, evFailed]

/-- Witness for C9: the stability equation instantiated at the singleton
failed event. -/
theorem claim9_stability_unclamped_witness :
    ([evFailed] ≠ ([] : List PodMetrics)) ∧
      (calculateNodeAnalysis [evFailed] 0).stabilityScore =
        1 - (calculateNodeAnalysis [evFailed] 0).failureRate -
          0.1 * (calculateNodeAnalysis [evFailed] 0).averageRestartCount :=
  ⟨List.cons_ne_nil _ _,
    claim9_stability_unclamped.1 [evFailed] 0 (List.cons_ne_nil _ _)⟩

/-- C10: on the zero-value NodeAnalysis of an empty 24h history the
history term is not neutral: the stability tier adds 0, the failure tier
adds the history weight, the restart tier adds the restart weight, and
the lifetime tier subtracts 10 — with the reference weights a net +20. -/
theorem claim10_empty_history_not_neutral :
    ∀ cfg : ScoringConfig,
      stabilityTierScore cfg zeroNodeAnalysis = 0 ∧
      failureTierScore cfg zeroNodeAnalysis = cfg.failedPodsWeight ∧
      restartTierScore cfg zeroNodeAnalysis = cfg.restartWeight ∧
      lifetimeTierScore zeroNodeAnalysis = -10 ∧
      (analyzePodMetrics cfg zeroNodeAnalysis).1 =
        cfg.failedPodsWeight + cfg.restartWeight - 10 ∧
      (analyzePodMetrics referenceConfig zeroNodeAnalysis).1 = 20 := by
  intro cfg
  have h1 : stabilityTierScore cfg zeroNodeAnalysis = 0 := by
    norm_num [stabilityTierScore, zeroNodeAnalysis]
  have h2 : failureTierScore cfg zeroNodeAnalysis = cfg.failedPodsWeight := by
    norm_num [failureTierScore, zeroNodeAnalysis]
  have h3 : restartTierScore cfg zeroNodeAnalysis = cfg.restartWeight := by
    norm_num [restartTierScore, zeroNodeAnalysis]
  have h4 : lifetimeTierScore zeroNodeAnalysis = -10 := by
    norm_num [lifetimeTierScore, zeroNodeAnalysis, hourNS]
  have h5 : (analyzePodMetrics cfg zeroNodeAnalysis).1 =
      cfg.failedPodsWeight + cfg.restartWeight - 10 := by
    simp only [analyzePodMetrics, h1, h2, h3, h4]
    ring
  refine ⟨h1, h2, h3, h4, h5, ?_⟩
  norm_num [analyzePodMetrics, stabilityTierScore, failureTierScore, restartTierScore,
    lifetimeTierScore, zeroNodeAnalysis, referenceConfig, hourNS]

theorem updateStatistics_history (c : PodMetricsCache) (n : String) (now : Int) :
    (updateStatistics c n now).nodePodHistory = c.nodePodHistory := by
  simp only [updateStatistics]
  split <;> rfl

theorem updateCache_history_self (c : PodMetricsCache) (pm : PodMetrics) (now : Int) :
    (updateCache c pm now).nodePodHistory pm.nodeName =
      (c.nodePodHistory pm.nodeName ++ [pm]).filter
        (fun m => decide (now - horizonNS < m.timestamp)) := by
  show (updateStatistics (cleanOldData (setHistory c pm.nodeName
    (c.nodePodHistory pm.nodeName ++ [pm])) pm.nodeName horizonNS now)
    pm.nodeName now).nodePodHistory pm.nodeName = _
  rw [updateStatistics_history]
  simp [cleanOldData, setHistory]

theorem updateCache_history_other (c : PodMetricsCache) (pm : PodMetrics) (now : Int)
    (n : String) (hne : n ≠ pm.nodeName) :
    (updateCache c pm now).nodePodHistory n = c.nodePodHistory n := by
  show (updateStatistics (cleanOldData (setHistory c pm.nodeName
    (c.nodePodHistory pm.nodeName ++ [pm])) pm.nodeName horizonNS now)
    pm.nodeName now).nodePodHistory n = _
  rw [updateStatistics_history]
  simp [cleanOldData, setHistory, hne]

/-- Any sequence of record calls, each tagged with the time at which it
happened, folded over a starting cache. -/
def applyWrites (c : PodMetricsCache) (ws : List (PodMetrics × Int)) : PodMetricsCache :=
  ws.foldl (fun acc w => updateCache acc w.1 w.2) c

/-- Time of the last write in the sequence that affected node n, when one
exists. -/
def lastWriteTime : List (PodMetrics × Int) → String → Option Int
  | [], _ => none
  | w :: rest, n =>
    match lastWriteTime rest n with
    | some t => some t
    | none => if w.1.nodeName = n then some w.2 else none

theorem applyWrites_cons (c : PodMetricsCache) (w : PodMetrics × Int)
    (ws : List (PodMetrics × Int)) :
    applyWrites c (w :: ws) = applyWrites (updateCache c w.1 w.2) ws := rfl

theorem lastWriteTime_none (ws : List (PodMetrics × Int)) (n : String)
    (h : lastWriteTime ws n = none) : ∀ w ∈ ws, w.1.nodeName ≠ n := by
  induction ws with
  | nil => simp
  | cons w rest ih =>
    intro w' hw'
    simp only [lastWriteTime] at h
    cases hrest : lastWriteTime rest n with
    | some t => rw [hrest] at h; simp at h
    | none =>
      rw [hrest] at h
      rcases List.mem_cons.mp hw' with h1 | h1
      · subst h1
        intro heq
        rw [if_pos heq] at h
        simp at h
      · exact ih hrest w' h1

theorem applyWrites_frame (ws : List (PodMetrics × Int)) (c : PodMetricsCache)
    (n : String) (h : ∀ w ∈ ws, w.1.nodeName ≠ n) :
    (applyWrites c ws).nodePodHistory n = c.nodePodHistory n := by
  induction ws generalizing c with
  | nil => rfl
  | cons w rest ih =>
    rw [applyWrites_cons, ih _ (fun w' hw' => h w' (List.mem_cons_of_mem _ hw'))]
    exact updateCache_history_other c w.1 w.2 n (Ne.symm (h w (List.mem_cons_self _ _)))

theorem updateCache_retention_step (c : PodMetricsCache) (pm : PodMetrics) (now : Int) :
    ∀ e ∈ (updateCache c pm now).nodePodHistory pm.nodeName,
      now - horizonNS < e.timestamp := by
  intro e he
  rw [updateCache_history_self] at he
  have := (List.mem_filter.mp he).2
  simpa using this

theorem retention_over_sequence (ws : List (PodMetrics × Int)) :
    ∀ (c : PodMetricsCache) (n : String) (t : Int),
      lastWriteTime ws n = some t →
      ∀ e ∈ (applyWrites c ws).nodePodHistory n, t - horizonNS < e.timestamp := by
  induction ws with
  | nil => intro c n t h; simp [lastWriteTime] at h
  | cons w rest ih =>
    intro c n t h e he
    rw [applyWrites_cons] at he
    cases hrest : lastWriteTime rest n with
    | some t' =>
      have ht : t' = t := by
        simp only [lastWriteTime, hrest] at h
        exact Option.some.inj h
      rw [← ht]
      exact ih _ n t' hrest e he
    | none =>
      have hnone := lastWriteTime_none rest n hrest
      rw [applyWrites_frame rest _ n hnone] at he
      simp only [lastWriteTime, hrest] at h
      by_cases hw : w.1.nodeName = n
      · rw [if_pos hw] at h
        have ht : w.2 = t := Option.some.inj h
        rw [← hw] at he
        have := updateCache_retention_step c w.1 w.2 e he
        omega
      · rw [if_neg hw] at h
        simp at h

/-- C6: record appends the event (it is present afterwards whenever it is
itself within the horizon), every surviving event of the written node is
younger than the 7-day horizon measured at the write, other nodes are
untouched, and consequently after any sequence of records every event
still readable for a node was within the horizon at that node's last
write. -/
theorem claim6_bounded_retention :
    (∀ (c : PodMetricsCache) (pm : PodMetrics) (now : Int),
      now - horizonNS < pm.timestamp →
      pm ∈ (updateCache c pm now).nodePodHistory pm.nodeName) ∧
    (∀ (c : PodMetricsCache) (pm : PodMetrics) (now : Int),
      ∀ e ∈ (updateCache c pm now).nodePodHistory pm.nodeName,
        now - horizonNS < e.timestamp) ∧
    (∀ (c : PodMetricsCache) (pm : PodMetrics) (now : Int) (n : String),
      n ≠ pm.nodeName →
      (updateCache c pm now).nodePodHistory n = c.nodePodHistory n) ∧
    (∀ (ws : List (PodMetrics × Int)) (c : PodMetricsCache) (n : String) (t : Int),
      lastWriteTime ws n = some t →
      ∀ e ∈ (applyWrites c ws).nodePodHistory n, t - horizonNS < e.timestamp) := by
  refine ⟨?_, updateCache_retention_step, updateCache_history_other,
    fun ws => retention_over_sequence ws⟩
  intro c pm now hnew
  rw [updateCache_history_self]
  exact List.mem_filter.mpr ⟨List.mem_append_right _ (List.mem_singleton_self _), by simpa⟩

/-- Witness for C6: recording the healthy event at time 0 leaves it
readable, and the retention bound instantiates at that single write. -/
theorem claim6_bounded_retention_witness :
    (lastWriteTime [(evHealthy, 0)] "A" = some 0) ∧
      0 - horizonNS < evHealthy.timestamp :=
  ⟨by decide,
    claim6_bounded_retention.2.2.2 [(evHealthy, 0)] emptyCache "A" 0 (by decide)
      evHealthy (by decide)⟩

/-- C7: after recording an event that survives retention, a windowed
analysis whose window contains the event's observation timestamp counts
it (it is in the filtered set, whose size is exactly totalPods), and an
analysis whose window excludes the timestamp does not. -/
theorem claim7_window_filtering (c : PodMetricsCache) (e : PodMetrics)
    (t0 timeWindow now : Int) (hkeep : t0 - horizonNS < e.timestamp) :
    (now - timeWindow < e.timestamp →
      e ∈ ((updateCache c e t0).nodePodHistory e.nodeName).filter
          (fun m => decide (now - timeWindow < m.timestamp)) ∧
      (getNodeAnalysis (updateCache c e t0) e.nodeName timeWindow now).totalPods =
        (((updateCache c e t0).nodePodHistory e.nodeName).filter
          (fun m => decide (now - timeWindow < m.timestamp))).length) ∧
    (e.timestamp ≤ now - timeWindow →
      e ∉ ((updateCache c e t0).nodePodHistory e.nodeName).filter
          (fun m => decide (now - timeWindow < m.timestamp))) := by
  constructor
  · intro hin
    constructor
    · rw [updateCache_history_self]
      refine List.mem_filter.mpr ⟨?_, by simpa⟩
      exact List.mem_filter.mpr
        ⟨List.mem_append_right _ (List.mem_singleton_self _), by simpa⟩
    · exact calcAnalysis_totalPods _ _
  · intro hout hmem
    have := (List.mem_filter.mp hmem).2
    simp only [decide_eq_true_eq] at this
    omega

/-- Witness for C7: the healthy event recorded at time 0 is counted by a
24h-window analysis performed one hour later. -/
theorem claim7_window_filtering_witness :
    evHealthy ∈ ((updateCache emptyCache evHealthy 0).nodePodHistory evHealthy.nodeName).filter
        (fun m => decide (hourNS - 24 * hourNS < m.timestamp)) ∧
      (getNodeAnalysis (updateCache emptyCache evHealthy 0) evHealthy.nodeName
          (24 * hourNS) hourNS).totalPods =
        (((updateCache emptyCache evHealthy 0).nodePodHistory evHealthy.nodeName).filter
          (fun m => decide (hourNS - 24 * hourNS < m.timestamp))).length :=
  (claim7_window_filtering emptyCache evHealthy 0 (24 * hourNS) hourNS (by decide)).1
    (by decide)

/-- The ten-event history of the C3 scenario: one failed event carrying
all five restarts, nine healthy events. -/
def tenEvents : List PodMetrics := evFailed :: List.replicate 9 evHealthy

/-- A cache whose node A history is exactly the ten scenario events. -/
def cacheTen : PodMetricsCache :=
  { emptyCache with nodePodHistory := fun k => if k = "A" then tenEvents else [] }

/-- C3: with 10 in-window events of which exactly one is Failed and an
average restart count of 0.5 (five restarts in total), the analysis has
failureRate 0.1 and stabilityScore 0.85, the recommendations list is
empty, and in the history term the failure tier contributes minus the
history weight while the stability tier contributes plus the history
weight. -/
theorem claim3_boundary_semantics (cfg : ScoringConfig) (c : PodMetricsCache)
    (n : String) (timeWindow now : Int)
    (hlen : (((c.nodePodHistory n).filter
      (fun m => decide (now - timeWindow < m.timestamp))).length) = 10)
    (hfail : countFailed ((c.nodePodHistory n).filter
      (fun m => decide (now - timeWindow < m.timestamp))) = 1)
    (hres : totalRestarts ((c.nodePodHistory n).filter
      (fun m => decide (now - timeWindow < m.timestamp))) = 5) :
    (getNodeAnalysis c n timeWindow now).failureRate = 0.1 ∧
    (getNodeAnalysis c n timeWindow now).stabilityScore = 0.85 ∧
    (getNodeAnalysis c n timeWindow now).recommendations = [] ∧
    failureTierScore cfg (getNodeAnalysis c n timeWindow now) = -cfg.failedPodsWeight ∧
    stabilityTierScore cfg (getNodeAnalysis c n timeWindow now) = cfg.failedPodsWeight := by
  obtain ⟨m, rest, hcons⟩ :
      ∃ m rest, (c.nodePodHistory n).filter
        (fun m => decide (now - timeWindow < m.timestamp)) = m :: rest := by
    cases hfl : (c.nodePodHistory n).filter
        (fun m => decide (now - timeWindow < m.timestamp)) with
    | nil => rw [hfl] at hlen; simp at hlen
    | cons a b => exact ⟨a, b, rfl⟩
  have hgna : getNodeAnalysis c n timeWindow now = calculateNodeAnalysis (m :: rest) now := by
    rw [getNodeAnalysis, hcons]
  rw [hcons] at hlen hfail hres
  have hfr : (calculateNodeAnalysis (m :: rest) now).failureRate = 0.1 := by
    rw [calcAnalysis_failureRate, hfail, hlen]
    norm_num
  have har : (calculateNodeAnalysis (m :: rest) now).averageRestartCount = 0.5 := by
    rw [calcAnalysis_avgRestart, hres, hlen]
    norm_num
  have hst : (calculateNodeAnalysis (m :: rest) now).stabilityScore = 0.85 := by
    rw [calcAnalysis_stability, hfr, har]
    norm_num
  have hrec : (calculateNodeAnalysis (m :: rest) now).recommendations = [] := by
    rw [calcAnalysis_recommendations, hfr, har, hst]
    norm_num
  have hft : failureTierScore cfg (calculateNodeAnalysis (m :: rest) now) =
      -cfg.failedPodsWeight := by
    simp only [failureTierScore, hfr]
    norm_num
  have hstt : stabilityTierScore cfg (calculateNodeAnalysis (m :: rest) now) =
      cfg.failedPodsWeight := by
    simp only [stabilityTierScore, hst]
    norm_num
  rw [hgna]
  exact ⟨hfr, hst, hrec, hft, hstt⟩

/-- Witness for C3: the concrete ten-event cache queried with a 24h window
one hour after the observations. -/
theorem claim3_boundary_semantics_witness :
    (getNodeAnalysis cacheTen "A" (24 * hourNS) hourNS).failureRate = 0.1 ∧
    (getNodeAnalysis cacheTen "A" (24 * hourNS) hourNS).stabilityScore = 0.85 ∧
    (getNodeAnalysis cacheTen "A" (24 * hourNS) hourNS).recommendations = [] ∧
    failureTierScore referenceConfig (getNodeAnalysis cacheTen "A" (24 * hourNS) hourNS) =
      -referenceConfig.failedPodsWeight ∧
    stabilityTierScore referenceConfig (getNodeAnalysis cacheTen "A" (24 * hourNS) hourNS) =
      referenceConfig.failedPodsWeight :=
  claim3_boundary_semantics referenceConfig cacheTen "A" (24 * hourNS) hourNS
    (by decide) (by decide) (by decide)

theorem selectLoop_some_ne_none (f : NodeInfo → ℚ × List String) :
    ∀ (nodes : List NodeInfo) (ns : NodeScore) (s : ℚ),
      selectLoop f nodes (some ns) s ≠ none := by
  intro nodes
  induction nodes with
  | nil => intro ns s; simp [selectLoop]
  | cons node rest ih =>
    intro ns s
    simp only [selectLoop]
    split_ifs with h
    · exact ih _ _
    · exact ih _ _

theorem selectLoop_none_of_all_le (f : NodeInfo → ℚ × List String) :
    ∀ (nodes : List NodeInfo) (s : ℚ), (∀ n ∈ nodes, (f n).1 ≤ s) →
      selectLoop f nodes none s = none := by
  intro nodes
  induction nodes with
  | nil => intro s _; rfl
  | cons node rest ih =>
    intro s h
    simp only [selectLoop]
    rw [if_neg (not_lt.mpr (h node (List.mem_cons_self _ _)))]
    exact ih s (fun n hn => h n (List.mem_cons_of_mem _ hn))

theorem selectLoop_all_le_of_none (f : NodeInfo → ℚ × List String) :
    ∀ (nodes : List NodeInfo) (s : ℚ), selectLoop f nodes none s = none →
      ∀ n ∈ nodes, (f n).1 ≤ s := by
  intro nodes
  induction nodes with
  | nil => intro s _ n hn; simp at hn
  | cons node rest ih =>
    intro s h n hn
    simp only [selectLoop] at h
    by_cases hlt : s < (f node).1
    · rw [if_pos hlt] at h
      exact absurd h (selectLoop_some_ne_none f rest _ _)
    · rw [if_neg hlt] at h
      rcases List.mem_cons.mp hn with h1 | h1
      · subst h1; exact not_lt.mp hlt
      · exact ih s h n h1

theorem selectLoop_skip_le (f : NodeInfo → ℚ × List String) :
    ∀ (rest : List NodeInfo) (ns : NodeScore) (s : ℚ),
      (∀ m ∈ rest, (f m).1 ≤ s) → selectLoop f rest (some ns) s = some ns := by
  intro rest
  induction rest with
  | nil => intro ns s _; rfl
  | cons node rest' ih =>
    intro ns s h
    simp only [selectLoop]
    rw [if_neg (not_lt.mpr (h node (List.mem_cons_self _ _)))]
    exact ih ns s (fun m hm => h m (List.mem_cons_of_mem _ hm))

/-- An environment whose 24h analysis is empty for every node. -/
def envZero : SchedEnv :=
  { cfg := referenceConfig
    nodeUsage := fun _ => (0, 0)
    nodeAnalysis24h := fun _ => zeroNodeAnalysis }

/-- An environment whose 24h analysis reports a fully failing history for
every node. -/
def badAnalysis : NodeAnalysis :=
  { nodeName := "A", totalPods := 10, failedPods := 10, successfulPods := 0,
    failureRate := 1, averageRestartCount := 3, averageLifetime := 0,
    stabilityScore := -(0.2 : ℚ),
    recommendations := ["Yüksek başarısızlık oranı", "Yüksek restart oranı",
      "Düşük kararlılık"] }

def envBad : SchedEnv :=
  { cfg := referenceConfig
    nodeUsage := fun _ => (0, 0)
    nodeAnalysis24h := fun _ => badAnalysis }

/-- A node with no allocatable resources reported, no conditions, and one
taint. -/
def nodeBadA : NodeInfo :=
  { name := "a", cpuAllocatableMilli := none, memAllocatableBytes := none,
    conditions := [], taints := 1 }

def nodeBadB : NodeInfo :=
  { name := "b", cpuAllocatableMilli := none, memAllocatableBytes := none,
    conditions := [], taints := 1 }

/-- C4 counterexample: with the pod lookup succeeding and an empty node
list, PredictBestNode returns neither a score nor an error. -/
theorem claim4_counterexample :
    predictBestNode envZero (Except.ok ()) (Except.ok []) = Except.ok none := rfl

/-- C4 amended: PredictBestNode returns a wrapped error when the pod
lookup or the node listing fails; otherwise it returns nil error together
with the loop result, and the loop result is nil exactly when every
node's score is at most the initial best of -1 — in particular for the
empty node list it returns neither a score nor an error. -/
theorem claim4_amended (env : SchedEnv) :
    (∀ (e : String) (nl : Except String (List NodeInfo)),
      predictBestNode env (Except.error e) nl =
        Except.error ("pod bulunamadı: " ++ e)) ∧
    (∀ e : String,
      predictBestNode env (Except.ok ()) (Except.error e) =
        Except.error ("node listesi alınamadı: " ++ e)) ∧
    (∀ nodes : List NodeInfo,
      predictBestNode env (Except.ok ()) (Except.ok nodes) =
        Except.ok (selectLoop (scoreNode env) nodes none (-1))) ∧
    (∀ nodes : List NodeInfo,
      selectLoop (scoreNode env) nodes none (-1) = none ↔
        ∀ node ∈ nodes, (scoreNode env node).1 ≤ -1) :=
  ⟨fun _ _ => rfl, fun _ => rfl, fun _ => rfl,
    fun nodes => ⟨selectLoop_all_le_of_none _ nodes _, selectLoop_none_of_all_le _ nodes _⟩⟩

/-- Witness for C4: the empty node list instantiates both the loop
equation and the nil characterization. -/
theorem claim4_amended_witness :
    predictBestNode envZero (Except.ok ()) (Except.ok []) =
        Except.ok (selectLoop (scoreNode envZero) [] none (-1)) ∧
      selectLoop (scoreNode envZero) [] none (-1) = none :=
  ⟨(claim4_amended envZero).2.2.1 [],
    ((claim4_amended envZero).2.2.2 []).mpr (by simp)⟩

/-- C5 counterexample: two distinct nodes both attain the maximal score
-40, yet PredictBestNode returns no node at all (the strict comparison
against the initial best of -1 never fires), so the first maximal node is
not returned. -/
theorem claim5_counterexample :
    (scoreNode envBad nodeBadA).1 = -40 ∧
    (scoreNode envBad nodeBadB).1 = -40 ∧
    nodeBadA.name ≠ nodeBadB.name ∧
    predictBestNode envBad (Except.ok ()) (Except.ok [nodeBadA, nodeBadB]) =
      Except.ok none := by
  have hA : (scoreNode envBad nodeBadA).1 = -40 := by
    norm_num [scoreNode, calculateNodeScore, resourceTermScore, analyzePodMetrics,
      stabilityTierScore, failureTierScore, restartTierScore, lifetimeTierScore,
      nodeIsReady, envBad, badAnalysis, nodeBadA, referenceConfig, hourNS]
  have hB : (scoreNode envBad nodeBadB).1 = -40 := by
    norm_num [scoreNode, calculateNodeScore, resourceTermScore, analyzePodMetrics,
      stabilityTierScore, failureTierScore, restartTierScore, lifetimeTierScore,
      nodeIsReady, envBad, badAnalysis, nodeBadB, referenceConfig, hourNS]
  refine ⟨hA, hB, by decide, ?_⟩
  simp only [predictBestNode, selectLoop, hA, hB]
  norm_num

/-- C5 amended: whenever the first node attaining the maximal score has a
score strictly above the loop's initial best of -1, PredictBestNode
returns exactly that node (strict greater-than comparison, ties resolved
to the earliest position); without that proviso the loop can return no
node at all. -/
theorem claim5_amended (env : SchedEnv) (pre post : List NodeInfo) (n : NodeInfo)
    (hpre : ∀ m ∈ pre, (scoreNode env m).1 < (scoreNode env n).1)
    (hpost : ∀ m ∈ post, (scoreNode env m).1 ≤ (scoreNode env n).1)
    (hgt : -1 < (scoreNode env n).1) :
    predictBestNode env (Except.ok ()) (Except.ok (pre ++ n :: post)) =
      Except.ok (some ⟨n.name, (scoreNode env n).1, (scoreNode env n).2⟩) := by
  have key : ∀ (p : List NodeInfo) (best : Option NodeScore) (s : ℚ),
      (∀ m ∈ p, (scoreNode env m).1 < (scoreNode env n).1) →
      s < (scoreNode env n).1 →
      selectLoop (scoreNode env) (p ++ n :: post) best s =
        some ⟨n.name, (scoreNode env n).1, (scoreNode env n).2⟩ := by
    intro p
    induction p with
    | nil =>
      intro best s _ hs
      simp only [List.nil_append, selectLoop]
      rw [if_pos hs]
      exact selectLoop_skip_le _ post _ _ hpost
    | cons m p' ih =>
      intro best s hp hs
      simp only [List.cons_append, selectLoop]
      by_cases hm : s < (scoreNode env m).1
      · rw [if_pos hm]
        exact ih _ _ (fun x hx => hp x (List.mem_cons_of_mem _ hx))
          (hp m (List.mem_cons_self _ _))
      · rw [if_neg hm]
        exact ih _ _ (fun x hx => hp x (List.mem_cons_of_mem _ hx)) hs
  simp only [predictBestNode]
  rw [key pre none (-1) hpre hgt]

/-- Witness for C5: a lone node scoring 20 under the empty-history
environment is returned by the loop. -/
theorem claim5_amended_witness :
    predictBestNode envZero (Except.ok ()) (Except.ok ([] ++ nodeBadA :: [])) =
      Except.ok (some ⟨nodeBadA.name, (scoreNode envZero nodeBadA).1,
        (scoreNode envZero nodeBadA).2⟩) :=
  claim5_amended envZero [] [] nodeBadA (by simp) (by simp)
    (by norm_num [scoreNode, calculateNodeScore, resourceTermScore, analyzePodMetrics,
      stabilityTierScore, failureTierScore, restartTierScore, lifetimeTierScore,
      nodeIsReady, envZero, zeroNodeAnalysis, nodeBadA, referenceConfig, hourNS])

theorem resourceTermScore_zero_usage (w : ℚ) (v : Int) (scale : ℚ)
    (hv : 0 < v) (hscale : 0 < scale) (hw : 0 ≤ w) :
    resourceTermScore w (some v) scale 0 = w := by
  have hvq : (0 : ℚ) < (v : ℚ) := by exact_mod_cast hv
  have hcap : (0 : ℚ) < (v : ℚ) / scale := div_pos hvq hscale
  simp only [resourceTermScore]
  rw [if_neg (by omega : ¬ v = 0), if_pos hcap]
  simp only [zero_div, zero_mul, sub_zero, mul_one]
  rw [if_neg (not_lt.mpr hw)]

theorem resourceTermScore_bounds (w : ℚ) (alloc : Option Int) (scale usage : ℚ)
    (hw : 0 ≤ w) (hu : 0 ≤ usage) :
    0 ≤ resourceTermScore w alloc scale usage ∧
      resourceTermScore w alloc scale usage ≤ w := by
  match alloc with
  | none => exact ⟨le_refl 0, hw⟩
  | some v =>
    simp only [resourceTermScore]
    by_cases h1 : v = 0
    · rw [if_pos h1]
      exact ⟨le_refl 0, hw⟩
    · rw [if_neg h1]
      by_cases h2 : (0 : ℚ) < (v : ℚ) / scale
      · rw [if_pos h2]
        set p : ℚ := usage / ((v : ℚ) / scale) * 100 with hpdef
        have hpnn : 0 ≤ p := mul_nonneg (div_nonneg hu (le_of_lt h2)) (by norm_num)
        have hprod : 0 ≤ w * (p / 100) :=
          mul_nonneg hw (div_nonneg hpnn (by norm_num))
        have hexp : w * (1 - p / 100) = w - w * (p / 100) := by ring
        by_cases h3 : w * (1 - p / 100) < 0
        · rw [if_pos h3]
          exact ⟨le_refl 0, hw⟩
        · rw [if_neg h3]
          exact ⟨not_lt.mp h3, by linarith⟩
      · rw [if_neg h2]
        exact ⟨le_refl 0, hw⟩

theorem stabilityTierScore_le (cfg : ScoringConfig) (a : NodeAnalysis)
    (hw : 0 ≤ cfg.failedPodsWeight) :
    stabilityTierScore cfg a ≤ cfg.failedPodsWeight := by
  simp only [stabilityTierScore]
  split_ifs <;> linarith

theorem failureTierScore_le (cfg : ScoringConfig) (a : NodeAnalysis)
    (hw : 0 ≤ cfg.failedPodsWeight) :
    failureTierScore cfg a ≤ cfg.failedPodsWeight := by
  simp only [failureTierScore]
  split_ifs <;> linarith

theorem restartTierScore_le (cfg : ScoringConfig) (a : NodeAnalysis)
    (hw : 0 ≤ cfg.restartWeight) :
    restartTierScore cfg a ≤ cfg.restartWeight := by
  simp only [restartTierScore]
  split_ifs <;> linarith

theorem lifetimeTierScore_le (a : NodeAnalysis) : lifetimeTierScore a ≤ 10 := by
  simp only [lifetimeTierScore]
  split_ifs <;> norm_num

/-- The node of the C1 scenario: ready, untainted, 4 CPU cores and 16 GB
allocatable. -/
def perfectNode : NodeInfo :=
  { name := "node-1", cpuAllocatableMilli := some 4000,
    memAllocatableBytes := some (16 * 1024 * 1024 * 1024),
    conditions := [("Ready", "True")], taints := 0 }

/-- A 24h analysis hitting the best tier of every history criterion. -/
def perfectAnalysis : NodeAnalysis :=
  { nodeName := "node-1", totalPods := 10, failedPods := 0, successfulPods := 10,
    failureRate := 0, averageRestartCount := 0, averageLifetime := 25 * hourNS,
    stabilityScore := 1, recommendations := [] }

/-- C1 counterexample: the reference-weight score of a ready, untainted
node with positive capacities, 0% usage and best-tier history is 150, not
130 — the history weight is added by both the stability tier and the
failure-rate tier. -/
theorem claim1_counterexample :
    (calculateNodeScore referenceConfig perfectNode 0 0 perfectAnalysis).1 = 150 ∧
      (calculateNodeScore referenceConfig perfectNode 0 0 perfectAnalysis).1 ≠ 130 := by
  have h : (calculateNodeScore referenceConfig perfectNode 0 0 perfectAnalysis).1 = 150 := by
    norm_num [calculateNodeScore, resourceTermScore, analyzePodMetrics, stabilityTierScore,
      failureTierScore, restartTierScore, lifetimeTierScore, nodeIsReady, perfectNode,
      perfectAnalysis, referenceConfig, hourNS]
  refine ⟨h, ?_⟩
  rw [h]
  norm_num

/-- C1 amended: with the reference weights, any ready, untainted node with
positive CPU and memory capacities, zero usage, and best-tier history
scores exactly 150, and 150 is the maximum achievable score over all
inputs with non-negative usage. -/
theorem claim1_amended :
    (∀ (node : NodeInfo) (a : NodeAnalysis) (mc mb : Int),
      node.cpuAllocatableMilli = some mc → 0 < mc →
      node.memAllocatableBytes = some mb → 0 < mb →
      nodeIsReady node = true → node.taints = 0 →
      a.stabilityScore > 0.8 → a.failureRate < 0.05 →
      a.averageRestartCount ≤ 1 → a.averageLifetime > 24 * hourNS →
      (calculateNodeScore referenceConfig node 0 0 a).1 = 150) ∧
    (∀ (node : NodeInfo) (cpuUsage memUsage : ℚ) (a : NodeAnalysis),
      0 ≤ cpuUsage → 0 ≤ memUsage →
      (calculateNodeScore referenceConfig node cpuUsage memUsage a).1 ≤ 150) := by
  constructor
  · intro node a mc mb hcpu hmc hmem hmb hready htaint hstab hfail hrestart hlife
    have h1 : resourceTermScore referenceConfig.cpuWeight node.cpuAllocatableMilli
        1000 0 = 30 := by
      rw [hcpu]
      exact resourceTermScore_zero_usage _ mc 1000 hmc (by norm_num)
        (by norm_num [referenceConfig])
    have h2 : resourceTermScore referenceConfig.memoryWeight node.memAllocatableBytes
        (1024 * 1024 * 1024) 0 = 30 := by
      rw [hmem]
      exact resourceTermScore_zero_usage _ mb (1024 * 1024 * 1024) hmb (by norm_num)
        (by norm_num [referenceConfig])
    have h3 : stabilityTierScore referenceConfig a = 20 := by
      simp only [stabilityTierScore, if_pos hstab]
      norm_num [referenceConfig]
    have h4 : failureTierScore referenceConfig a = 20 := by
      simp only [failureTierScore, if_pos hfail]
      norm_num [referenceConfig]
    have h5 : restartTierScore referenceConfig a = 10 := by
      simp only [restartTierScore, if_pos hrestart]
      norm_num [referenceConfig]
    have h6 : lifetimeTierScore a = 10 := by
      simp only [lifetimeTierScore, if_pos hlife]
    simp only [calculateNodeScore, analyzePodMetrics, h1, h2, h3, h4, h5, h6,
      hready, htaint, if_pos, if_true]
    norm_num [referenceConfig]
  · intro node cpuUsage memUsage a hcu hmu
    have h1 := resourceTermScore_bounds referenceConfig.cpuWeight node.cpuAllocatableMilli
      1000 cpuUsage (by norm_num [referenceConfig]) hcu
    have h2 := resourceTermScore_bounds referenceConfig.memoryWeight
      node.memAllocatableBytes (1024 * 1024 * 1024) memUsage
      (by norm_num [referenceConfig]) hmu
    have h3 := stabilityTierScore_le referenceConfig a (by norm_num [referenceConfig])
    have h4 := failureTierScore_le referenceConfig a (by norm_num [referenceConfig])
    have h5 := restartTierScore_le referenceConfig a (by norm_num [referenceConfig])
    have h6 := lifetimeTierScore_le a
    have hw1 : referenceConfig.cpuWeight = 30 := rfl
    have hw2 : referenceConfig.memoryWeight = 30 := rfl
    have hwf : referenceConfig.failedPodsWeight = 20 := rfl
    have hwr : referenceConfig.restartWeight = 10 := rfl
    have hwready : referenceConfig.nodeReadyWeight = 20 := rfl
    have hwtaint : referenceConfig.taintWeight = 10 := rfl
    rw [hw1] at h1
    rw [hw2] at h2
    rw [hwf] at h3 h4
    rw [hwr] at h5
    have hready : (if nodeIsReady node = true then (20 : ℚ) else 0) ≤ 20 := by
      split_ifs <;> norm_num
    have htaint : (if node.taints = 0 then (10 : ℚ) else 0) ≤ 10 := by
      split_ifs <;> norm_num
    simp only [calculateNodeScore, analyzePodMetrics]
    rw [hw1, hw2, hwready, hwtaint]
    linarith [h1.1, h1.2, h2.1, h2.2]

/-- Witness for C1: the perfect node and perfect analysis realize the
150-point maximum, and the bound holds at zero usage. -/
theorem claim1_amended_witness :
    (calculateNodeScore referenceConfig perfectNode 0 0 perfectAnalysis).1 = 150 ∧
      (calculateNodeScore referenceConfig perfectNode 0 0 perfectAnalysis).1 ≤ 150 :=
  ⟨claim1_amended.1 perfectNode perfectAnalysis 4000 (16 * 1024 * 1024 * 1024)
      rfl (by decide) rfl (by decide) (by decide) rfl
      (by norm_num [perfectAnalysis]) (by norm_num [perfectAnalysis])
      (by norm_num [perfectAnalysis]) (by norm_num [perfectAnalysis, hourNS]),
    claim1_amended.2 perfectNode 0 0 perfectAnalysis (le_refl 0) (le_refl 0)⟩

